import Mathlib

set_option maxRecDepth 100000

/-!
Verification of the ScriptWeaver core (paragraph classification & markup
pipeline, notation transpiler, heading registry, validation engine).

The Python source is shallowly embedded: strings are Lean `String`s, bytes are
`List Nat` (each element < 256), machine words are `Nat` reduced mod 2 ^ 32.
Unicode character classes (`\w`, `\s`, `str.lower`) are modelled over the
character repertoire exercised by the program and this development: ASCII plus
the Japanese hiragana, katakana and CJK-ideograph ranges.  All definitions are
executable so that concrete runs of the embedded code can be settled by
`decide` / `rfl`.
-/

/-! ### Basic character classes (Python `\d`, `\s`, `\w`, `str.strip`, `str.lower`) -/

/-- Python `\d` (ASCII decimal digits for the repertoire used here). -/
def isDigitCh (c : Char) : Bool := c.isDigit

/-- Python `\s` / `str.strip` whitespace: ASCII whitespace, NBSP and the
ideographic space U+3000. -/
def isPySpace (c : Char) : Bool :=
  c.toNat = 32 || c.toNat = 9 || c.toNat = 10 || c.toNat = 11 ||
  c.toNat = 12 || c.toNat = 13 || c.toNat = 160 || c.toNat = 12288

/-- Python `\w` over the repertoire used here: ASCII alphanumerics, underscore,
hiragana, katakana (letters only), iteration marks and CJK ideographs. -/
def isWordChar (c : Char) : Bool :=
  c.isAlphanum || c = '_' ||
  (0x3041 ≤ c.toNat && c.toNat ≤ 0x3096) ||
  (0x309D ≤ c.toNat && c.toNat ≤ 0x309E) ||
  (0x30A1 ≤ c.toNat && c.toNat ≤ 0x30FA) ||
  (0x30FC ≤ c.toNat && c.toNat ≤ 0x30FF) ||
  (0x3005 ≤ c.toNat && c.toNat ≤ 0x3007) ||
  (0x4E00 ≤ c.toNat && c.toNat ≤ 0x9FFF)

/-- ASCII `[a-zA-Z0-9]` (the class searched by `_generate_heading_id`). -/
def isAsciiAlnum (c : Char) : Bool := c.isAlphanum

/-- `str.lower` restricted to ASCII (identity on the Japanese repertoire). -/
def toLowerCh (c : Char) : Char := c.toLower

/-- Python `str.strip()` on a character list. -/
def pyStripList (cs : List Char) : List Char :=
  ((cs.dropWhile isPySpace).reverse.dropWhile isPySpace).reverse

/-- Python `str.strip()`. -/
def pyStrip (s : String) : String := String.mk (pyStripList s.data)

/-- Maximal digit prefix together with the rest. -/
def takeDigits (cs : List Char) : List Char × List Char :=
  (cs.takeWhile isDigitCh, cs.dropWhile isDigitCh)

/-- Match a literal character list at the head, returning the rest. -/
def matchLit : List Char → List Char → Option (List Char)
  | [], cs => some cs
  | _ :: _, [] => none
  | n :: ns, c :: cs => if n = c then matchLit ns cs else none

/-- Does `needle` occur as a contiguous sublist of `hay`? -/
def hasSubList (needle : List Char) : List Char → Bool
  | [] => (matchLit needle []).isSome
  | c :: rest => (matchLit needle (c :: rest)).isSome || hasSubList needle rest

/-! ### MD5 (hashlib.md5), executable over `Nat` with explicit mod 2 ^ 32 -/

def M32 : Nat := 4294967296

def add32 (a b : Nat) : Nat := (a + b) % M32

/-- Bitwise AND on 32-bit words via structural recursion (kernel-reducible). -/
def bitAnd32 : Nat → Nat → Nat → Nat
  | 0, _, _ => 0
  | fuel + 1, a, b =>
    (if a % 2 = 1 && b % 2 = 1 then 1 else 0) + 2 * bitAnd32 fuel (a / 2) (b / 2)

def bitOr32 : Nat → Nat → Nat → Nat
  | 0, _, _ => 0
  | fuel + 1, a, b =>
    (if a % 2 = 1 || b % 2 = 1 then 1 else 0) + 2 * bitOr32 fuel (a / 2) (b / 2)

def bitXor32 : Nat → Nat → Nat → Nat
  | 0, _, _ => 0
  | fuel + 1, a, b =>
    (if (a % 2 = 1) ≠ (b % 2 = 1) then 1 else 0) + 2 * bitXor32 fuel (a / 2) (b / 2)

def and32 (a b : Nat) : Nat := bitAnd32 32 a b
def or32 (a b : Nat) : Nat := bitOr32 32 a b
def xor32 (a b : Nat) : Nat := bitXor32 32 a b
def not32 (a : Nat) : Nat := 4294967295 - a % M32

/-- Left-rotation of a 32-bit word. -/
def rotl32 (x n : Nat) : Nat := (x * 2 ^ n + x / 2 ^ (32 - n)) % M32

/-- The 64 MD5 sine-derived constants (RFC 1321). -/
def md5K : List Nat :=
  [0xd76aa478, 0xe8c7b756, 0x242070db, 0xc1bdceee,
   0xf57c0faf, 0x4787c62a, 0xa8304613, 0xfd469501,
   0x698098d8, 0x8b44f7af, 0xffff5bb1, 0x895cd7be,
   0x6b901122, 0xfd987193, 0xa679438e, 0x49b40821,
   0xf61e2562, 0xc040b340, 0x265e5a51, 0xe9b6c7aa,
   0xd62f105d, 0x02441453, 0xd8a1e681, 0xe7d3fbc8,
   0x21e1cde6, 0xc33707d6, 0xf4d50d87, 0x455a14ed,
   0xa9e3e905, 0xfcefa3f8, 0x676f02d9, 0x8d2a4c8a,
   0xfffa3942, 0x8771f681, 0x6d9d6122, 0xfde5380c,
   0xa4beea44, 0x4bdecfa9, 0xf6bb4b60, 0xbebfbc70,
   0x289b7ec6, 0xeaa127fa, 0xd4ef3085, 0x04881d05,
   0xd9d4d039, 0xe6db99e5, 0x1fa27cf8, 0xc4ac5665,
   0xf4292244, 0x432aff97, 0xab9423a7, 0xfc93a039,
   0x655b59c3, 0x8f0ccc92, 0xffeff47d, 0x85845dd1,
   0x6fa87e4f, 0xfe2ce6e0, 0xa3014314, 0x4e0811a1,
   0xf7537e82, 0xbd3af235, 0x2ad7d2bb, 0xeb86d391]

/-- The MD5 per-round shift amounts. -/
def md5S : List Nat :=
  [7, 12, 17, 22, 7, 12, 17, 22, 7, 12, 17, 22, 7, 12, 17, 22,
   5, 9, 14, 20, 5, 9, 14, 20, 5, 9, 14, 20, 5, 9, 14, 20,
   4, 11, 16, 23, 4, 11, 16, 23, 4, 11, 16, 23, 4, 11, 16, 23,
   6, 10, 15, 21, 6, 10, 15, 21, 6, 10, 15, 21, 6, 10, 15, 21]

def md5F (i b c d : Nat) : Nat :=
  if i < 16 then or32 (and32 b c) (and32 (not32 b) d)
  else if i < 32 then or32 (and32 d b) (and32 (not32 d) c)
  else if i < 48 then xor32 (xor32 b c) d
  else xor32 c (or32 b (not32 d))

def md5G (i : Nat) : Nat :=
  if i < 16 then i
  else if i < 32 then (5 * i + 1) % 16
  else if i < 48 then (3 * i + 5) % 16
  else (7 * i) % 16

/-- Little-endian 32-bit word `j` of a 64-byte chunk. -/
def wordAt (chunk : List Nat) (j : Nat) : Nat :=
  chunk.getD (4 * j) 0 + 256 * chunk.getD (4 * j + 1) 0 +
  65536 * chunk.getD (4 * j + 2) 0 + 16777216 * chunk.getD (4 * j + 3) 0

def md5Step (chunk : List Nat) (st : Nat × Nat × Nat × Nat) (i : Nat) :
    Nat × Nat × Nat × Nat :=
  let a := st.1
  let b := st.2.1
  let c := st.2.2.1
  let d := st.2.2.2
  let f := (md5F i b c d + a + md5K.getD i 0 + wordAt chunk (md5G i)) % M32
  (d, add32 b (rotl32 f (md5S.getD i 0)), b, c)

def md5ProcessChunk (st : Nat × Nat × Nat × Nat) (chunk : List Nat) :
    Nat × Nat × Nat × Nat :=
  let e := (List.range 64).foldl (md5Step chunk) st
  (add32 st.1 e.1, add32 st.2.1 e.2.1, add32 st.2.2.1 e.2.2.1,
   add32 st.2.2.2 e.2.2.2)

def md5Chunks : Nat → (Nat × Nat × Nat × Nat) → List Nat → Nat × Nat × Nat × Nat
  | 0, st, _ => st
  | _ + 1, st, [] => st
  | fuel + 1, st, b :: bs =>
    md5Chunks fuel (md5ProcessChunk st ((b :: bs).take 64)) ((b :: bs).drop 64)

/-- `k` bytes of `n`, little-endian. -/
def leBytes : Nat → Nat → List Nat
  | 0, _ => []
  | k + 1, n => n % 256 :: leBytes k (n / 256)

def hexDigitCh (k : Nat) : Char := "0123456789abcdef".data.getD k '0'

def byteHex (n : Nat) : List Char := [hexDigitCh (n / 16), hexDigitCh (n % 16)]

/-- The lowercase hexadecimal MD5 digest of a byte list (hashlib semantics). -/
def md5Hex (bytes : List Nat) : String :=
  let len := bytes.length
  let padLen := (119 - len % 64) % 64
  let padded := bytes ++ 128 :: List.replicate padLen 0 ++ leBytes 8 ((len * 8) % 2 ^ 64)
  let st := md5Chunks padded.length (0x67452301, 0xefcdab89, 0x98badcfe, 0x10325476) padded
  String.mk (((leBytes 4 st.1 ++ leBytes 4 st.2.1 ++ leBytes 4 st.2.2.1 ++
    leBytes 4 st.2.2.2).map byteHex).flatten)

/-- First 8 hex characters of the MD5 digest (`hexdigest()[:8]`). -/
def md5Hex8 (bytes : List Nat) : String := String.mk ((md5Hex bytes).data.take 8)

/-! ### UTF-8 encoding (`str.encode()`) -/

def utf8Char (c : Char) : List Nat :=
  let n := c.toNat
  if n < 0x80 then [n]
  else if n < 0x800 then [0xC0 + n / 64, 0x80 + n % 64]
  else if n < 0x10000 then [0xE0 + n / 4096, 0x80 + n / 64 % 64, 0x80 + n % 64]
  else [0xF0 + n / 262144, 0x80 + n / 4096 % 64, 0x80 + n / 64 % 64, 0x80 + n % 64]

def utf8List (cs : List Char) : List Nat := cs.flatMap utf8Char


/-! ### ContentProcessor._generate_heading_id -/

/-- `re.sub(r'[^\w\s-]', '', text)`: keep word characters, whitespace, hyphen. -/
def keepWordSpaceHyphen (cs : List Char) : List Char :=
  cs.filter (fun c => isWordChar c || isPySpace c || c = '-')

/-- Squeeze runs of consecutive hyphens down to a single hyphen. -/
def squeezeDash : List Char → List Char
  | [] => []
  | c :: rest =>
    let r := squeezeDash rest
    if c = '-' then
      match r with
      | d :: _ => if d = '-' then r else c :: r
      | [] => [c]
    else c :: r

/-- `re.sub(r'[-\s]+', '-', text)`: each run of hyphen/whitespace becomes one
hyphen.  Mapping every such character to a hyphen and squeezing runs is
equivalent. -/
def collapseHyphenSpace (cs : List Char) : List Char :=
  squeezeDash (cs.map (fun c => if c = '-' || isPySpace c then '-' else c))

/-- `text.strip('-')`. -/
def stripDashes (cs : List Char) : List Char :=
  ((cs.dropWhile (· = '-')).reverse.dropWhile (· = '-')).reverse

/-- The cleaning pipeline of `_generate_heading_id`: strip special characters,
collapse hyphen/whitespace runs, trim hyphens, lowercase. -/
def cleanText (cs : List Char) : List Char :=
  (stripDashes (collapseHyphenSpace (keepWordSpaceHyphen cs))).map toLowerCh

/-- `re.match(r'^(\d+(?:-\d+)*)', text)`, the leading numeric path, with fuel
for structural termination (callers pass the list length). -/
def numericPathAux : Nat → List Char → List Char
  | 0, _ => []
  | fuel + 1, cs =>
    match cs with
    | '-' :: rest =>
      let p := takeDigits rest
      if p.1 = [] then [] else '-' :: (p.1 ++ numericPathAux fuel p.2)
    | _ => []

def numericPath (cs : List Char) : List Char :=
  let p := takeDigits cs
  p.1 ++ numericPathAux cs.length p.2

/-- `ContentProcessor._generate_heading_id`.  Note that both the leading-digit
test and the hash fallback operate on the *cleaned* text (the Python code
rebinds `text` before branching). -/
def generate_heading_id (text : String) : String :=
  let t := cleanText text.data
  if (match t with | c :: _ => isDigitCh c | [] => false) then
    String.mk ("heading-".data ++ numericPath t)
  else if t = [] || !(t.any isAsciiAlnum) then
    String.mk ("heading-".data ++ (md5Hex8 (utf8List t)).data)
  else
    String.mk ("heading-".data ++ t)

/-! ### Numbered-heading patterns (`_compile_patterns`, `_is_numbered_heading`,
`_determine_heading_level`) -/

/-- Rest after matching `^\d+(-\d+){k-1}\.` (the numeric prefix of a numbered
heading with `k` segments followed by the literal dot). -/
def matchNumPrefixAux : Nat → List Char → Option (List Char)
  | 0, _ => none
  | k + 1, cs =>
    let p := takeDigits cs
    if p.1 = [] then none
    else
      match k, p.2 with
      | 0, '.' :: rest => some rest
      | kk + 1, '-' :: rest => matchNumPrefixAux (kk + 1) rest
      | _, _ => none

/-- After the dot of pattern `^(\d+…)\.\s+(.+)`: at least one whitespace
character, then (with backtracking) some non-newline character. -/
def spaceTextAux : List Char → Bool
  | [] => false
  | c :: rest => if c.toNat ≠ 10 then true else spaceTextAux rest

def dotSpaceText : List Char → Bool
  | [] => false
  | c :: rest => isPySpace c && spaceTextAux rest

/-- After the dot of pattern `^(\d+…)\.(.+)`: one non-newline character. -/
def dotText (cs : List Char) : Bool :=
  match cs with
  | c :: _ => c.toNat ≠ 10
  | [] => false

/-- Does the text match the pair of `k`-segment numbered-heading patterns
(`N-…-N. title` with or without the space)? -/
def numberedMatchK (k : Nat) (cs : List Char) : Bool :=
  match matchNumPrefixAux k cs with
  | some rest => dotSpaceText rest || dotText rest
  | none => false

/-- `ContentProcessor._is_numbered_heading`. -/
def is_numbered_heading (cs : List Char) : Bool :=
  numberedMatchK 1 cs || numberedMatchK 2 cs || numberedMatchK 3 cs

/-- `ContentProcessor._determine_heading_level`: index of the first matching
pattern decides the level (defaulting to 2). -/
def determine_heading_level (cs : List Char) : Nat :=
  if numberedMatchK 1 cs then 1
  else if numberedMatchK 2 cs then 2
  else if numberedMatchK 3 cs then 3
  else 2

/-! ### ContentProcessor.collect_headings -/

structure Heading where
  text : String
  level : Nat
  id : String
  type : String
deriving DecidableEq, Repr

/-- Count of leading `#` characters (`len(p) - len(p.lstrip('#'))`). -/
def countLeadingHash (p : String) : Nat := (p.data.takeWhile (· = '#')).length

/-- `p.startswith('#')`, kernel-reducible. -/
def startsWithHash (p : String) : Bool :=
  match p.data with
  | c :: _ => c = '#'
  | [] => false

/-- The heading record contributed by one paragraph, if any. -/
def headingOf (p : String) : Option Heading :=
  if startsWithHash p then
    let lvl := countLeadingHash p
    let text := pyStrip (String.mk (p.data.drop lvl))
    some { text := text, level := lvl, id := generate_heading_id text, type := "hash" }
  else if is_numbered_heading p.data then
    some { text := pyStrip p, level := determine_heading_level p.data,
           id := generate_heading_id p, type := "numbered" }
  else none

/-- `ContentProcessor.collect_headings`. -/
def collect_headings (paragraphs : List String) : List Heading :=
  paragraphs.filterMap headingOf


/-! ### ContentProcessor.process_coc_elements (HTML escape + notation passes) -/

/-- `html.escape(text, quote=True)` on one character (`&`, `<`, `>`, `"` and
the apostrophe, code points 38, 60, 62, 34, 39). -/
def escapeChar (c : Char) : List Char :=
  if c.toNat = 38 then "&amp;".data
  else if c.toNat = 60 then "&lt;".data
  else if c.toNat = 62 then "&gt;".data
  else if c.toNat = 34 then "&quot;".data
  else if c.toNat = 39 then "&#x27;".data
  else [c]

/-- `ContentProcessor._escape_html`. -/
def escape_html (s : String) : String := String.mk (s.data.flatMap escapeChar)

/-- Optional signed-integer tail `(?:[+\-]\d+)?`, greedy. -/
def optSignedTail (cs : List Char) : List Char × List Char :=
  match cs with
  | '+' :: r =>
    let p := takeDigits r
    if p.1 = [] then ([], cs) else ('+' :: p.1, p.2)
  | '-' :: r =>
    let p := takeDigits r
    if p.1 = [] then ([], cs) else ('-' :: p.1, p.2)
  | _ => ([], cs)

/-- Match the SAN pattern `(SANc?\d+/\d+(?:d\d+)?(?:[+\-]\d+)?)` at the head of
the list, returning the matched text and the rest. -/
def matchSan (cs : List Char) : Option (List Char × List Char) :=
  match cs with
  | 'S' :: 'A' :: 'N' :: rest =>
    let cr : List Char × List Char :=
      match rest with
      | 'c' :: r => (['c'], r)
      | r => ([], r)
    let d1 := takeDigits cr.2
    if d1.1 = [] then none
    else
      match d1.2 with
      | '/' :: r3 =>
        let d2 := takeDigits r3
        if d2.1 = [] then none
        else
          let dice : List Char × List Char :=
            match d2.2 with
            | 'd' :: r =>
              let dd := takeDigits r
              if dd.1 = [] then ([], d2.2) else ('d' :: dd.1, dd.2)
            | _ => ([], d2.2)
          let m := optSignedTail dice.2
          some ('S' :: 'A' :: 'N' :: (cr.1 ++ d1.1 ++ '/' :: d2.1 ++ dice.1 ++ m.1), m.2)
      | _ => none
  | _ => none

/-- Match the dice pattern `(\d+[dD]\d+(?:[+\-]\d+)?)` at the head. -/
def matchDice (cs : List Char) : Option (List Char × List Char) :=
  let d1 := takeDigits cs
  if d1.1 = [] then none
  else
    match d1.2 with
    | 'd' :: r2 =>
      let d2 := takeDigits r2
      if d2.1 = [] then none
      else
        let m := optSignedTail d2.2
        some (d1.1 ++ 'd' :: d2.1 ++ m.1, m.2)
    | 'D' :: r2 =>
      let d2 := takeDigits r2
      if d2.1 = [] then none
      else
        let m := optSignedTail d2.2
        some (d1.1 ++ 'D' :: d2.1 ++ m.1, m.2)
    | _ => none

/-- Match a bracketed pattern such as `【([^】]+)】` at the head (generic over
the bracket glyph pair). -/
def matchBracketed (openCh closeCh : Char) (cs : List Char) : Option (List Char × List Char) :=
  match cs with
  | c :: rest =>
    if c = openCh then
      let inner := rest.takeWhile (· ≠ closeCh)
      let r := rest.dropWhile (· ≠ closeCh)
      if inner = [] then none
      else
        match r with
        | c2 :: rr => if c2 = closeCh then some (openCh :: inner ++ [closeCh], rr) else none
        | [] => none
    else none
  | [] => none

def matchSkill (cs : List Char) : Option (List Char × List Char) :=
  matchBracketed '【' '】' cs

def matchItem (cs : List Char) : Option (List Char × List Char) :=
  matchBracketed '『' '』' cs

/-- `re.sub` with a matcher that consumes at least one character: scan left to
right, replace each leftmost non-overlapping match with `pre ++ match ++ post`,
and continue after it.  `fuel` is the input length. -/
def subCore (m : List Char → Option (List Char × List Char)) (pre post : List Char) :
    Nat → List Char → List Char
  | 0, cs => cs
  | _ + 1, [] => []
  | fuel + 1, c :: cs =>
    match m (c :: cs) with
    | some (matched, rest) => pre ++ matched ++ post ++ subCore m pre post fuel rest
    | none => c :: subCore m pre post fuel cs

def subst (m : List Char → Option (List Char × List Char)) (pre post : String)
    (cs : List Char) : List Char :=
  subCore m pre.data post.data cs.length cs

/-- `ContentProcessor._convert_san_notation` (on character lists). -/
def convert_san (cs : List Char) : List Char :=
  subst matchSan "<span class=\"coc-san\">" "</span>" cs

def convert_dice (cs : List Char) : List Char :=
  subst matchDice "<span class=\"coc-dice\">" "</span>" cs

def convert_skill (cs : List Char) : List Char :=
  subst matchSkill "<span class=\"coc-skill\">" "</span>" cs

def convert_item (cs : List Char) : List Char :=
  subst matchItem "<span class=\"coc-item\">" "</span>" cs

/-- `ContentProcessor.process_coc_elements`: escape first, then the SAN, dice,
skill and item passes in that order. -/
def process_coc_elements (s : String) : String :=
  String.mk (convert_item (convert_skill (convert_dice (convert_san
    (s.data.flatMap escapeChar)))))


/-! ### HTMLGenerator._convert_heading and _generate_toc -/

/-- Python-dict lookup over an association list built by a comprehension:
later bindings shadow earlier ones. -/
def dictGet : List (String × String) → String → Option String
  | [], _ => none
  | p :: rest, k =>
    match dictGet rest k with
    | some v => some v
    | none => if p.1 = k then some p.2 else none

/-- `{heading['text']: heading['id'] for heading in headings}`. -/
def headingIds (hs : List Heading) : List (String × String) :=
  hs.map (fun h => (h.text, h.id))

/-- `HTMLGenerator._convert_heading`: the rendered element level is capped at
6, the display text is the remainder after the `#` run, trimmed. -/
def convert_heading (paragraph : String) (ids : List (String × String)) : String :=
  let original := countLeadingHash paragraph
  let level := min original 6
  let text := pyStrip (String.mk (paragraph.data.drop original))
  let idAttr :=
    match dictGet ids text with
    | some i => " id=\"" ++ i ++ "\""
    | none => ""
  "        <h" ++ toString level ++ idAttr ++ ">" ++ escape_html text ++
    "</h" ++ toString level ++ ">"

/-- `'    ' * n`. -/
def repeatStr : Nat → String → String
  | 0, _ => ""
  | n + 1, s => s ++ repeatStr n s

/-- One `<li>` entry of the table of contents. -/
def tocEntry (h : Heading) : String :=
  let indent := repeatStr (h.level - 1) "    "
  "            " ++ indent ++ "<li class=\"toc-level-" ++ toString h.level ++ "\">\n" ++
  "            " ++ indent ++ "    <a href=\"#" ++ h.id ++ "\">" ++
    escape_html h.text ++ "</a>\n" ++
  "            " ++ indent ++ "</li>\n"

/-- `HTMLGenerator._generate_toc`. -/
def generate_toc (headings : List Heading) : String :=
  if headings.isEmpty then ""
  else
    "        <nav class=\"table-of-contents\">\n" ++
    "            <h2 class=\"toc-title\">目次</h2>\n" ++
    "            <ul class=\"toc-list\">\n" ++
    String.join (headings.map tocEntry) ++
    "            </ul>\n" ++
    "        </nav>"

/-! ### NPC status rendering (`html_generator._convert_npc_status` and
`converter._convert_npc_status`) -/

def npcTokens : List (List Char) :=
  ["STR".data, "CON".data, "SIZ".data, "INT".data, "POW".data, "DEX".data, "HP".data]

/-- `re.search(r'\(.*(?:STR|CON|SIZ|INT|POW|DEX|HP).*\)', line)`: some token
occurrence has a `(` strictly before it and a `)` at or after its end. -/
def npcStatAux : Bool → List Char → Bool
  | _, [] => false
  | seen, c :: rest =>
    (seen && npcTokens.any (fun t =>
      match matchLit t (c :: rest) with
      | some r => r.contains ')'
      | none => false)) ||
    npcStatAux (seen || c = '(') rest

def npcStatLine (cs : List Char) : Bool := npcStatAux false cs

def trailingWsLen (cs : List Char) : Nat := (cs.reverse.takeWhile isPySpace).length

/-- Split a list just after its last occurrence of `stop`. -/
def lastOccSplit (stop : Char) (cs : List Char) : Option (List Char × List Char) :=
  let tail := cs.reverse.takeWhile (· ≠ stop)
  if tail.length = cs.length then none
  else some (cs.take (cs.length - tail.length), cs.drop (cs.length - tail.length))

/-- `re.match(r'^([^()]+?)[\s　]*(\(.*\))(.*)$', line)` from
`converter._convert_npc_status`: lazy paren-free name, optional whitespace, the
parenthesised stats from the first `(` to the last `)`, then the remainder. -/
def convNpcMatch (cs : List Char) : Option (List Char × List Char × List Char) :=
  let pre := cs.takeWhile (· ≠ '(')
  let post := cs.drop pre.length
  if post.isEmpty then none
  else if pre.contains ')' then none
  else if pre.isEmpty then none
  else
    match lastOccSplit ')' post with
    | none => none
    | some (g2, g3) =>
      let aLen := max 1 (pre.length - trailingWsLen pre)
      some (pre.take aLen, g2, g3)

/-- `re.match(r'^([^()]+?)\s*(\\(.*\\))(.*)$', line)` from
`html_generator._convert_npc_status`.  In this raw-string pattern `\\` is an
escaped backslash, so the expression demands two literal backslash characters
in the line, and the group the code reads as the remainder is the inner group
ending at the second backslash. -/
def buggyNpcAux : List Char → List Char → Option (List Char × List Char × List Char)
  | _, [] => none
  | nameRev, c :: rest =>
    if c = '(' || c = ')' then none
    else
      let name := (c :: nameRev).reverse
      match rest.dropWhile isPySpace with
      | '\\' :: r2 =>
        (match lastOccSplit '\\' r2 with
         | some (upIncl, _) => some (name, '\\' :: upIncl, upIncl)
         | none => buggyNpcAux (c :: nameRev) rest)
      | _ => buggyNpcAux (c :: nameRev) rest

def buggyNpcMatch (cs : List Char) : Option (List Char × List Char × List Char) :=
  buggyNpcAux [] cs

/-- Rest of the line after the first occurrence of `needle`. -/
def afterFirstOcc (needle : List Char) : List Char → Option (List Char)
  | [] => matchLit needle []
  | c :: rest =>
    match matchLit needle (c :: rest) with
    | some r => some r
    | none => afterFirstOcc needle rest

/-- `re.sub(r'^.*?技能:\s*', '', line)` (and the 装備 analogue): drop through
the first occurrence of the label, then drop the following whitespace. -/
def afterLabel (label : String) (line : List Char) : List Char :=
  ((afterFirstOcc label.data line).getD line).dropWhile isPySpace

/-- `re.search(r'(噛みつき|爪|ダメージ|\d+d\d+)', line)`. -/
def hasSimpleDice : List Char → Bool
  | [] => false
  | c :: rest =>
    (isDigitCh c &&
      (match (takeDigits (c :: rest)).2 with
       | 'd' :: r => !(takeDigits r).1.isEmpty
       | _ => false)) ||
    hasSimpleDice rest

def isAttackLine (line : List Char) : Bool :=
  hasSubList "噛みつき".data line || hasSubList "爪".data line ||
  hasSubList "ダメージ".data line || hasSimpleDice line

/-- Split a character list on a separator character (Python `str.split(sep)`). -/
def splitOnChar (sep : Char) : List Char → List (List Char)
  | [] => [[]]
  | c :: rest =>
    let r := splitOnChar sep rest
    if c = sep then [] :: r
    else
      match r with
      | h :: t => (c :: h) :: t
      | [] => [[c]]

/-- The markup contributed by one line of an NPC status block, parametrised by
the name/stats/note matcher (the two sources differ only there). -/
def npcLineHtml (mf : List Char → Option (List Char × List Char × List Char))
    (lcs : List Char) : String :=
  let line := pyStripList lcs
  if line = [] then ""
  else if npcStatLine line then
    match mf line with
    | some (g1, g2, g3) =>
      let nm := String.mk (pyStripList g1)
      let stats := String.mk (pyStripList g2)
      let other := String.mk (pyStripList g3)
      "            <div class=\"npc-name\">" ++ process_coc_elements nm ++ "</div>\n" ++
      (if other ≠ "" then
        "            <div class=\"npc-note\">" ++ process_coc_elements other ++ "</div>\n"
       else "") ++
      "            <div class=\"npc-stats\">" ++ process_coc_elements stats ++ "</div>\n"
    | none => ""
  else if hasSubList "技能:".data line then
    "            <div class=\"npc-skills\"><strong>技能:</strong> " ++
      process_coc_elements (String.mk (afterLabel "技能:" line)) ++ "</div>\n"
  else if hasSubList "装備:".data line then
    "            <div class=\"npc-equipment\"><strong>装備:</strong> " ++
      process_coc_elements (String.mk (afterLabel "装備:" line)) ++ "</div>\n"
  else if isAttackLine line then
    "            <div class=\"npc-attacks\"><strong>攻撃:</strong> " ++
      process_coc_elements (String.mk line) ++ "</div>\n"
  else
    "            <div class=\"npc-other\">" ++ process_coc_elements (String.mk line) ++
      "</div>\n"

def npcStatusHtml (mf : List Char → Option (List Char × List Char × List Char))
    (paragraph : String) : String :=
  "        <div class=\"npc-status-block\">\n" ++
  String.join ((splitOnChar (Char.ofNat 10) (pyStrip paragraph).data).map (npcLineHtml mf)) ++
  "        </div>"

/-- `html_generator._convert_npc_status` (note the `\\(`-escaped pattern). -/
def html_convert_npc_status (paragraph : String) : String :=
  npcStatusHtml buggyNpcMatch paragraph

/-- `converter._convert_npc_status` (the working `\(` pattern). -/
def conv_convert_npc_status (paragraph : String) : String :=
  npcStatusHtml convNpcMatch paragraph


/-! ### Validation system (validation.py) -/

inductive ValidationLevel where
  | critical
  | warning
  | info
  | suggestion
deriving DecidableEq, Repr

structure ValidationResult where
  level : ValidationLevel
  message : String
  suggestion : Option String := none
  line_number : Option Nat := none
  column : Option Nat := none
  code : Option String := none
  original_text : Option String := none
  proposed_fix : Option String := none
deriving DecidableEq, Repr

structure ValidationConfig where
  strict_mode : Bool := false
  trpg_system : String := "CoC6"
  custom_skills : List String := []
  warning_threshold : Nat := 10
  auto_fix : Bool := true
  beginner_mode : Bool := false
deriving DecidableEq, Repr

structure ValidationReport where
  results : List ValidationResult
  critical_count : Nat
  warning_count : Nat
  info_count : Nat
  suggestion_count : Nat
deriving DecidableEq, Repr

def emptyReport : ValidationReport := ⟨[], 0, 0, 0, 0⟩

/-- `ValidationReport.add_result`. -/
def add_result (r : ValidationReport) (v : ValidationResult) : ValidationReport :=
  { results := r.results ++ [v]
    critical_count := r.critical_count + (if v.level = .critical then 1 else 0)
    warning_count := r.warning_count + (if v.level = .warning then 1 else 0)
    info_count := r.info_count + (if v.level = .info then 1 else 0)
    suggestion_count := r.suggestion_count + (if v.level = .suggestion then 1 else 0) }

/-- A registered rule checker: its `get_name()` and its `validate` method;
an unexpected Python exception is modelled as `Except.error` carrying
`str(e)`. -/
structure RuleChecker where
  name : String
  validate : String → Nat → Except String (List ValidationResult)

/-- Results contributed by one checker on one line, including the engine's
conversion of an exception into a critical VALIDATOR_ERROR result. -/
def checkerOutput (v : RuleChecker) (line : String) (n : Nat) : List ValidationResult :=
  match v.validate line n with
  | .ok rs => rs
  | .error e =>
    [{ level := .critical
       message := "バリデータエラー (" ++ v.name ++ "): " ++ e
       line_number := some n
       code := some "VALIDATOR_ERROR" }]

/-- `ValidationEngine.validate_line`. -/
def validate_line (vs : List RuleChecker) (line : String) (n : Nat) :
    List ValidationResult :=
  vs.flatMap (fun v => checkerOutput v line n)

/-- `content.split('\n')`. -/
def splitLines (content : String) : List String :=
  (splitOnChar (Char.ofNat 10) content.data).map String.mk

/-- The `(level, line_number)` pairs collected by
`ValidationEngine._validate_document_structure`.  The numbered-heading branch
is guarded by `^\d+\.`, and only inside it are `^\d+-\d+\.` and
`^\d+-\d+-\d+\.` consulted for levels 2 and 3 (as in the source). -/
def structureHeadingLevels (content : String) : List (Nat × Nat) :=
  (splitLines content).enum.filterMap (fun p =>
    let line := pyStrip p.2
    if startsWithHash line then some (countLeadingHash line, p.1 + 1)
    else if (matchNumPrefixAux 1 line.data).isSome then
      some ((if (matchNumPrefixAux 2 line.data).isSome then 2
             else if (matchNumPrefixAux 3 line.data).isSome then 3
             else 1), p.1 + 1)
    else none)

/-- The hierarchy walk of `_validate_document_structure`: warn whenever a level
exceeds the previous one by more than 1 (previous level starts at 0). -/
def hierWarnings : Nat → List (Nat × Nat) → List ValidationResult
  | _, [] => []
  | prev, (level, n) :: rest =>
    (if prev + 1 < level then
      [{ level := .warning
         message := "見出し階層が飛んでいます（レベル" ++ toString prev ++
           "の次にレベル" ++ toString level ++ "）"
         suggestion := some "段階的な見出し階層を推奨します"
         line_number := some n
         code := some "HEADING_HIERARCHY" }]
     else []) ++ hierWarnings level rest

/-- `ValidationEngine._validate_document_structure`. -/
def validate_document_structure (content : String) : List ValidationResult :=
  hierWarnings 0 (structureHeadingLevels content)

/-- `ValidationEngine.validate_document`: every physical line (1-based) through
every checker, then the document-structure results, all accumulated through
`add_result`. -/
def validate_document (vs : List RuleChecker) (content : String) : ValidationReport :=
  (((splitLines content).enum.flatMap (fun p => validate_line vs p.2 (p.1 + 1))) ++
    validate_document_structure content).foldl add_result emptyReport

/-! ### SkillValidator -/

def COC6_SKILLS : List String :=
  ["目星", "聞き耳", "図書館", "説得", "信用", "隠れる", "忍び歩き",
   "鍵開け", "機械修理", "コンピュータ", "運転", "操縦", "心理学",
   "医学", "応急手当", "精神分析", "オカルト", "人類学", "考古学",
   "歴史", "自然史", "物理学", "化学", "生物学", "地質学", "天文学",
   "電気修理", "電子工学", "ナビゲート", "追跡", "写真術", "芸術",
   "クトゥルフ神話", "母国語", "他の言語", "回避", "キック", "組み付き",
   "こぶし", "頭突き", "投擲", "マーシャルアーツ", "剣道", "拳銃",
   "サブマシンガン", "ショットガン", "マシンガン", "ライフル"]

/-- One row of the `_simple_distance` alignment matrix. -/
def rowAux (c2 : Char) : List Char → List Nat → Nat → List Nat
  | [], _, _ => []
  | c1 :: s1rest, d0 :: d1 :: drest, last =>
    let v := if c1 = c2 then d0 else 1 + min d0 (min d1 last)
    v :: rowAux c2 s1rest (d1 :: drest) v
  | _ :: _, _, _ => []

def distLoop (s1 : List Char) : List Char → List Nat → Nat → List Nat
  | [], dist, _ => dist
  | c2 :: s2rest, dist, idx2 =>
    distLoop s1 s2rest ((idx2 + 1) :: rowAux c2 s1 dist (idx2 + 1)) (idx2 + 1)

/-- `SkillValidator._simple_distance` (swap so the first string is the shorter,
then the row-by-row alignment matrix; the result is the last cell). -/
def simple_distance (a b : String) : Nat :=
  let s1 := if a.data.length > b.data.length then b.data else a.data
  let s2 := if a.data.length > b.data.length then a.data else b.data
  (distLoop s1 s2 (List.range (s1.length + 1)) 0).getLastD 0

/-- `SkillValidator._find_similar_skill`: first strictly-better score wins,
accepted only when the distance is at most 2. -/
def find_similar_skill (inp : String) (skills : List String) : Option String :=
  (skills.foldl
    (fun (acc : Option String × Option Nat) skill =>
      let score := simple_distance inp skill
      let isBetter := match acc.2 with | none => true | some b => score < b
      if isBetter && score ≤ 2 then (some skill, some score) else acc)
    (none, none)).1

/-- `re.sub(r'[+\-]\d+$', '', s)`: cut at the leftmost sign followed by digits
running to the end of the string. -/
def stripModSplit : List Char → Option (List Char)
  | [] => none
  | c :: rest =>
    if (c = '+' || c = '-') && !rest.isEmpty && rest.all isDigitCh then some []
    else
      match stripModSplit rest with
      | some kept => some (c :: kept)
      | none => none

def stripTrailingMod (cs : List Char) : List Char :=
  (stripModSplit cs).getD cs

/-- `re.sub(r'or.+$', '', s)`: cut at the leftmost `or` that has at least one
character after it. -/
def stripOrSplit : List Char → Option (List Char)
  | 'o' :: 'r' :: _ :: _ => some []
  | c :: rest =>
    (match stripOrSplit rest with
     | some kept => some (c :: kept)
     | none => none)
  | [] => none

def stripOrSuffix (cs : List Char) : List Char :=
  (stripOrSplit cs).getD cs

/-- All inner groups of `【([^】]+)】` found by `re.finditer`, left to right,
non-overlapping. -/
def findSkillGroups : Nat → List Char → List (List Char)
  | 0, _ => []
  | _ + 1, [] => []
  | fuel + 1, c :: cs =>
    match matchSkill (c :: cs) with
    | some (matched, rest) =>
      (matched.drop 1).dropLast :: findSkillGroups fuel rest
    | none => findSkillGroups fuel cs

/-- `SkillValidator.validate`. -/
def skill_validate (config : ValidationConfig) (text : String) (n : Nat) :
    List ValidationResult :=
  (findSkillGroups text.data.length text.data).flatMap (fun inner =>
    let skill_name := String.mk inner
    let base := String.mk (stripOrSuffix (stripTrailingMod inner))
    let all := COC6_SKILLS ++ config.custom_skills
    if all.contains base then []
    else
      let sugg := find_similar_skill base all
      let suggText :=
        match sugg with
        | some s => "【" ++ s ++ "】でしょうか？"
        | none => "標準技能名を確認してください"
      [{ level := if config.strict_mode then .warning else .suggestion
         message := "未知の技能名です: " ++ skill_name
         suggestion := some suggText
         line_number := some n
         code := some "SKILL_UNKNOWN"
         original_text := some ("【" ++ skill_name ++ "】")
         proposed_fix := sugg.map (fun s => "【" ++ s ++ "】") }])


/-! ### Auxiliary concrete rule checkers used by the theorems below -/

/-- A rule checker whose `validate` raises on every line (models an unexpected
exception inside a checker). -/
def boomChecker : RuleChecker :=
  { name := "SkillValidator", validate := fun _ _ => .error "boom" }

/-- A rule checker that flags blank lines and accepts everything else. -/
def blankFlagChecker : RuleChecker :=
  { name := "BlankFlag"
    validate := fun line n =>
      .ok (if line = "" then
        [{ level := .info, message := "blank line", line_number := some n }]
      else []) }

/-! ### Theorems -/

/-- The report accumulated through `add_result` lists exactly the appended
results, in order. -/
theorem results_foldl_add_result (l : List ValidationResult) (r : ValidationReport) :
    (l.foldl add_result r).results = r.results ++ l := by
  induction l generalizing r with
  | nil => simp
  | cons v t ih => simp [List.foldl_cons, ih, add_result]

/-- C1 (counterexample): two distinct hash headings whose texts contain no
ASCII alphanumeric and no leading digits receive the *same* identifier — the
hash fallback hashes the cleaned text, and `あ!` and `あ?` clean to the same
string — so identifiers are not pairwise distinct within a document. -/
theorem c1_headings_collide :
    ((collect_headings ["# あ!", "# あ?"]).map Heading.text).Nodup ∧
    ¬ ((collect_headings ["# あ!", "# あ?"]).map Heading.id).Nodup := by decide

/-- C1 (amended): the identifier assigned by `_generate_heading_id` is a
function of the cleaned heading text alone, so any two headings whose cleaned
texts coincide — including distinct hash-fallback headings — share one
identifier; identifiers are not pairwise distinct in general. -/
theorem c1_id_depends_only_on_cleaned_text (t u : String)
    (h : cleanText t.data = cleanText u.data) :
    generate_heading_id t = generate_heading_id u := by
  simp only [generate_heading_id, h]

theorem c1_id_depends_only_on_cleaned_text_witness :
    cleanText "あ!".data = cleanText "あ?".data ∧
    generate_heading_id "あ!" = generate_heading_id "あ?" :=
  ⟨by decide, c1_id_depends_only_on_cleaned_text "あ!" "あ?" (by decide)⟩

/-- C2 (counterexample): a dice-like substring inside an already-wrapped
sanity-loss token *is* additionally wrapped as a dice span when the token has a
`d`-tail: on `SAN1/1d4` the dice pass nests a `coc-dice` span inside the
`coc-san` span. -/
theorem c2_san_token_rewrapped :
    process_coc_elements "SAN1/1d4" ≠ "<span class=\"coc-san\">SAN1/1d4</span>" ∧
    process_coc_elements "SAN1/1d4" =
      "<span class=\"coc-san\">SAN1/<span class=\"coc-dice\">1d4</span></span>" := by
  decide

/-- C2 (amended): the sanity-loss pass runs before the dice pass (after the
single HTML-escape), and on the concrete input the transpiler wraps `1d4+1` as
one dice span and the whole `SANc0/1` token as one sanity-loss span; the
general no-re-wrap guarantee, however, only holds for sanity-loss tokens
without an embedded dice-like substring. -/
theorem c2_pass_order_and_example :
    (∀ s : String, process_coc_elements s =
      String.mk (convert_item (convert_skill (convert_dice (convert_san
        (s.data.flatMap escapeChar)))))) ∧
    process_coc_elements "1d4+1のダメージ、SANc0/1の減少" =
      "<span class=\"coc-dice\">1d4+1</span>のダメージ、<span class=\"coc-san\">SANc0/1</span>の減少" :=
  ⟨fun _ => rfl, by decide⟩

/-- C3 (counterexample): the Notation Transpiler is not idempotent — running
it on its own output changes the text again. -/
theorem c3_not_idempotent :
    process_coc_elements (process_coc_elements "1d4") ≠ process_coc_elements "1d4" := by
  decide

/-- C3 (amended): every invocation of the transpiler re-applies HTML-escaping,
so a second run escapes the span markup inserted by the first and re-wraps the
dice substring inside it. -/
theorem c3_second_run_escapes_again :
    process_coc_elements (process_coc_elements "1d4") =
      "&lt;span class=&quot;coc-dice&quot;&gt;<span class=\"coc-dice\">1d4</span>&lt;/span&gt;" := by
  decide

/-- C4 (counterexample): for a hash heading with seven `#` the level recorded
by `collect_headings` is 7, not the claimed cap `min 7 6 = 6`, and the table of
contents uses the uncapped level (`toc-level-7`). -/
theorem c4_recorded_level_not_capped :
    ((collect_headings ["####### 深層"]).map Heading.level = [7]) ∧
    ¬ ((collect_headings ["####### 深層"]).map Heading.level =
        [min (countLeadingHash "####### 深層") 6]) ∧
    hasSubList "toc-level-7".data (generate_toc (collect_headings ["####### 深層"])).data
      = true := by decide

/-- C4 (amended): for a hash-heading block the registry records the *uncapped*
count of leading `#` (the table of contents therefore also uses the uncapped
level), while only the rendered heading element caps the level at 6. -/
theorem c4_levels_recorded_and_rendered (p : String) (ids : List (String × String))
    (h : startsWithHash p = true) :
    (collect_headings [p]).map Heading.level = [countLeadingHash p] ∧
    convert_heading p ids =
      "        <h" ++ toString (min (countLeadingHash p) 6) ++
      (match dictGet ids (pyStrip (String.mk (p.data.drop (countLeadingHash p)))) with
       | some i => " id=\"" ++ i ++ "\""
       | none => "") ++ ">" ++
      escape_html (pyStrip (String.mk (p.data.drop (countLeadingHash p)))) ++
      "</h" ++ toString (min (countLeadingHash p) 6) ++ ">" := by
  refine ⟨?_, rfl⟩
  simp [collect_headings, headingOf, h]

theorem c4_levels_recorded_and_rendered_witness :
    startsWithHash "####### 深層" = true ∧
    ((collect_headings ["####### 深層"]).map Heading.level =
        [countLeadingHash "####### 深層"] ∧
     convert_heading "####### 深層" [] =
      "        <h" ++ toString (min (countLeadingHash "####### 深層") 6) ++
      (match dictGet []
          (pyStrip (String.mk ("####### 深層".data.drop (countLeadingHash "####### 深層")))) with
       | some i => " id=\"" ++ i ++ "\""
       | none => "") ++ ">" ++
      escape_html (pyStrip (String.mk ("####### 深層".data.drop (countLeadingHash "####### 深層")))) ++
      "</h" ++ toString (min (countLeadingHash "####### 深層") 6) ++ ">") :=
  ⟨by decide, c4_levels_recorded_and_rendered "####### 深層" [] (by decide)⟩

/-- C5 (counterexample): for the heading text `あ!` — whose cleaned text has no
ASCII alphanumeric and no leading digit — the identifier is *not* built from a
hash of the original text: the code hashes the cleaned text (`あ`), which gives
a different digest. -/
theorem c5_hash_of_original_fails :
    ((cleanText "あ!".data).all (fun c => !(isAsciiAlnum c)) = true) ∧
    ((match cleanText "あ!".data with | c :: _ => isDigitCh c | [] => false) = false) ∧
    generate_heading_id "あ!" ≠ "heading-" ++ md5Hex8 (utf8List "あ!".data) ∧
    generate_heading_id "あ!" = "heading-" ++ md5Hex8 (utf8List (cleanText "あ!".data)) := by
  decide

/-- C5 (amended): when the cleaned heading text contains no ASCII alphanumeric
character and does not start with a digit, the identifier is `heading-`
followed by the first 8 hex characters of the MD5 digest of the *cleaned* text
(the Python code rebinds `text` to the cleaned form before hashing). -/
theorem c5_hash_of_cleaned_text (t : String)
    (h1 : (cleanText t.data).all (fun c => !(isAsciiAlnum c)) = true)
    (h2 : (match cleanText t.data with | c :: _ => isDigitCh c | [] => false) = false) :
    generate_heading_id t =
      String.mk ("heading-".data ++ (md5Hex8 (utf8List (cleanText t.data))).data) := by
  have hany : (cleanText t.data).any isAsciiAlnum = false := by
    cases hq : (cleanText t.data).any isAsciiAlnum with
    | false => rfl
    | true =>
      rcases List.any_eq_true.mp hq with ⟨x, hx, hxa⟩
      have hall := List.all_eq_true.mp h1 x hx
      simp [hxa] at hall
  simp only [generate_heading_id, h2, hany]
  simp

theorem c5_hash_of_cleaned_text_witness :
    ((cleanText "あ!".data).all (fun c => !(isAsciiAlnum c)) = true) ∧
    ((match cleanText "あ!".data with | c :: _ => isDigitCh c | [] => false) = false) ∧
    generate_heading_id "あ!" =
      String.mk ("heading-".data ++ (md5Hex8 (utf8List (cleanText "あ!".data))).data) :=
  ⟨by decide, by decide, c5_hash_of_cleaned_text "あ!" (by decide) (by decide)⟩

/-- C6 (code bug): the document-phase structural check collects only hash
headings and *single-segment* numbered headings — the `^\d+\.` guard rejects
`N-N.` and `N-N-N.` lines, so the branches assigning levels 2 and 3 are
unreachable — hence a level-1 numbered heading followed by a level-3 numbered
heading yields no warning, while the analogous hash-heading jump does. -/
theorem c6_numbered_level_jump_unreported :
    validate_document_structure "1. 概要\n1-1-1. 詳細な説明" = [] ∧
    structureHeadingLevels "1. 概要\n1-1-1. 詳細な説明" = [(1, 1)] ∧
    (validate_document_structure "# 概要\n### 詳細").length = 1 := by decide

/-- C7: on the line `【目だま】判定で何かを見つける` with the default config the
vocabulary checker returns exactly one result, of suggestion severity, whose
proposed fix is `【目星】`; `目星` is the unique vocabulary entry within
alignment-matrix distance 2 of `目だま`. -/
theorem c7_vocabulary_suggestion :
    (skill_validate {} "【目だま】判定で何かを見つける" 1).length = 1 ∧
    (skill_validate {} "【目だま】判定で何かを見つける" 1).map ValidationResult.level =
      [ValidationLevel.suggestion] ∧
    (skill_validate {} "【目だま】判定で何かを見つける" 1).map ValidationResult.proposed_fix =
      [some "【目星】"] ∧
    COC6_SKILLS.filter (fun s => simple_distance "目だま" s ≤ 2) = ["目星"] := by decide

/-- C8: a checker whose `validate` raises contributes exactly one
critical-severity VALIDATOR_ERROR result naming the checker and carrying the
line number, while the other checkers' results are unaffected; at document
level every line is still processed and the structure results still follow. -/
theorem c8_checker_error_recovery (vs1 vs2 : List RuleChecker) (v : RuleChecker)
    (line : String) (n : Nat) (e : String) (content : String)
    (h : v.validate line n = .error e) :
    validate_line (vs1 ++ v :: vs2) line n =
      validate_line vs1 line n ++
      [{ level := .critical
         message := "バリデータエラー (" ++ v.name ++ "): " ++ e
         line_number := some n
         code := some "VALIDATOR_ERROR" }] ++
      validate_line vs2 line n ∧
    (validate_document (vs1 ++ v :: vs2) content).results =
      ((splitLines content).enum.flatMap
        (fun p => validate_line (vs1 ++ v :: vs2) p.2 (p.1 + 1))) ++
      validate_document_structure content := by
  constructor
  · simp [validate_line, checkerOutput, h]
  · simp [validate_document, results_foldl_add_result, emptyReport]

theorem c8_checker_error_recovery_witness :
    boomChecker.validate "x" 2 = .error "boom" ∧
    (validate_line ([] ++ boomChecker :: []) "x" 2 =
      validate_line [] "x" 2 ++
      [{ level := .critical
         message := "バリデータエラー (" ++ boomChecker.name ++ "): " ++ "boom"
         line_number := some 2
         code := some "VALIDATOR_ERROR" }] ++
      validate_line [] "x" 2 ∧
     (validate_document ([] ++ boomChecker :: []) "a\nb").results =
      ((splitLines "a\nb").enum.flatMap
        (fun p => validate_line ([] ++ boomChecker :: []) p.2 (p.1 + 1))) ++
      validate_document_structure "a\nb") :=
  ⟨rfl, c8_checker_error_recovery [] [] boomChecker "x" 2 "boom" "a\nb" rfl⟩

/-- C9 (code bug): on an NPC stats line the `html_generator` renderer emits no
name/stats/note regions at all — its pattern demands literal backslashes
(`\\(` in a raw string) — whereas the `converter` renderer splits the same
line into the three labeled regions as specified. -/
theorem c9_npc_stats_line_dropped :
    html_convert_npc_status "悪霊 (STR 15 POW 13 HP 12) 夜のみ出現\n技能: 【隠れる】80" =
      "        <div class=\"npc-status-block\">\n            <div class=\"npc-skills\"><strong>技能:</strong> <span class=\"coc-skill\">【隠れる】</span>80</div>\n        </div>" ∧
    conv_convert_npc_status "悪霊 (STR 15 POW 13 HP 12) 夜のみ出現\n技能: 【隠れる】80" =
      "        <div class=\"npc-status-block\">\n            <div class=\"npc-name\">悪霊</div>\n            <div class=\"npc-note\">夜のみ出現</div>\n            <div class=\"npc-stats\">(STR 15 POW 13 HP 12)</div>\n            <div class=\"npc-skills\"><strong>技能:</strong> <span class=\"coc-skill\">【隠れる】</span>80</div>\n        </div>" := by
  decide

/-- C10: `validate_document` offers every physical line — blank lines included
— to every registered checker with a 1-based line number, and the report is the
in-order concatenation of the per-line results followed by the
document-structure results; in particular a checker that flags blank lines has
its diagnostic recorded. -/
theorem c10_every_line_offered (vs : List RuleChecker) (content : String) :
    (validate_document vs content).results =
      ((splitLines content).enum.flatMap (fun p => validate_line vs p.2 (p.1 + 1))) ++
      validate_document_structure content ∧
    (validate_document [blankFlagChecker] "a\n\nb").results =
      [{ level := .info, message := "blank line", line_number := some 2 }] := by
  constructor
  · simp [validate_document, results_foldl_add_result, emptyReport]
  · decide
